import Mathlib

/-!
Shallow embedding of the DLRover master coordination core
(dlrover/python/master/resource/job.py, master/shard/task_manager.py,
master/servicer.py, diagnosis/datacollector/atorch_event_collector.py),
with theorems checking the natural-language specification against it.

Python floats that only ever get compared and scaled are embedded as
rationals; Python ints holding sizes, counts and MiB memory values as
naturals or integers as the source dictates.
-/

namespace DLRover

/-- Node types of the elastic job (dlrover.python.common.constants.NodeType),
restricted to the members read by the embedded modules. -/
inductive NodeType where
  | worker
  | ps
  | evaluator
  | chief
deriving DecidableEq, Repr

/-- Resource of a single node: cpu cores (a Python float, embedded as a
rational) and memory in MiB (a Python int, embedded as a natural). From
dlrover.python.common.node.NodeResource as used by resource/job.py. -/
structure NodeResource where
  cpu : Rat
  memory : Nat
deriving DecidableEq, Repr

/-- A node group: replica count plus per-node resource. From
dlrover.python.common.node.NodeGroupResource. -/
structure NodeGroupResource where
  count : Nat
  node_resource : NodeResource
deriving DecidableEq, Repr

/-- Modelled from the spec: the NodeResourceLimit constants
(MIN_VALID_CPU, MIN_VALID_MEMORY, MAX_PS_NUM, INCREMENTAL_MEMORY_FACTOR,
MAX_MEMORY). dlrover/python/common/constants.py is not part of src, and
the spec names the constants without fixing all their values, so they are
kept as parameters of the embedding. -/
structure NodeResourceLimit where
  min_valid_cpu : Rat
  min_valid_memory : Nat
  max_ps_num : Nat
  /-- INCREMENTAL_MEMORY_FACTOR as an exact fraction
  inc_factor_num / inc_factor_den (the spec instantiates it to 1.5). -/
  inc_factor_num : Nat
  inc_factor_den : Nat
  max_memory : Nat
deriving DecidableEq, Repr

/-- Job lifecycle stage (dlrover.python.common.constants.JobOptStage). -/
inductive JobOptStage where
  | create
  | workerInitial
  | psInitial
  | running
deriving DecidableEq, Repr

/-- Worker optimize phase (constants.OptimizeWorkerPhase). -/
inductive OptimizeWorkerPhase where
  | initial
  | sample
  | stable
deriving DecidableEq, Repr

/-- Modelled from the spec: ResourcePlan (master/resource/optimizer.py is not
part of src).  Its node_group_resources dict is embedded as the two optional
entries the core reads and writes (worker, ps); node_resources keeps the
node-level map.  empty() is true iff both maps are empty (spec 4.3 / data
model). -/
structure ResourcePlan where
  worker_group : Option NodeGroupResource
  ps_group : Option NodeGroupResource
  node_resources : List (String × NodeResource)
deriving DecidableEq, Repr

/-- plan.empty(): both maps empty. -/
def ResourcePlan.empty (p : ResourcePlan) : Bool :=
  p.worker_group.isNone && p.ps_group.isNone && p.node_resources.isEmpty

/-- Modelled from the spec: adjust_plan_by_context clamps proposed counts
against global policy, in particular PS count is clamped to MAX_PS_NUM
(spec 4.3).  Only the PS clamp is observable through the embedded claims. -/
def ResourcePlan.adjust_plan_by_context (L : NodeResourceLimit)
    (p : ResourcePlan) : ResourcePlan :=
  { p with ps_group :=
      p.ps_group.map (fun g => { g with count := min g.count L.max_ps_num }) }

/-- Modelled from the spec: the polymorphic ResourceOptimizer capability
(Local and Brain variants are not part of src).  generate_opt_plan takes the
stage and the optional worker-optimize phase from the config dict; both
methods return a plan and never fail, an empty plan meaning no
recommendation (spec 4.3). -/
structure ResourceOptimizer where
  generate_opt_plan : JobOptStage → Option OptimizeWorkerPhase → ResourcePlan
  generate_oom_recovery_plan : List String → JobOptStage → ResourcePlan

/-- The global dlrover context flags read by resource/job.py. -/
structure DlroverContext where
  easydl_worker_enabled : Bool
  easydl_ps_enabled : Bool
deriving DecidableEq, Repr

/-- Mutable fields of JobResourceOptimizer (resource/job.py, __init__):
the live worker/ps group resources, the immutable originals snapshotted at
construction, the stage, and the two flags. -/
structure JobResourceOptimizerState where
  worker_resource : NodeGroupResource
  ps_resource : NodeGroupResource
  original_worker_resource : NodeGroupResource
  original_ps_resource : NodeGroupResource
  job_stage : JobOptStage
  optimized_ps_mem : Bool
  optimize_worker_sampled : Bool
deriving DecidableEq, Repr

/-- Python exceptions surfaced by the embedded code paths. -/
inductive PyError where
  | attributeError
  | keyError
  | typeError
  | valueError
deriving DecidableEq, Repr

/-- JobResourceOptimizer._check_ignore_original_worker_resource
(resource/job.py lines 405-421): abandon the optimization result where the
user has pinned the resource. -/
def check_ignore_original_worker_resource (L : NodeResourceLimit)
    (s : JobResourceOptimizerState) (num : Nat) (cpu : Rat) (mem : Nat) :
    Nat × Rat × Nat :=
  let num := if 0 < s.original_worker_resource.count then
    s.original_worker_resource.count else num
  let mem := if L.min_valid_memory ≤
      s.original_worker_resource.node_resource.memory then
    s.original_worker_resource.node_resource.memory else mem
  let cpu := if L.min_valid_cpu ≤
      s.original_worker_resource.node_resource.cpu then
    s.original_worker_resource.node_resource.cpu else cpu
  (num, cpu, mem)

/-- JobResourceOptimizer._check_ignore_original_ps_resource
(resource/job.py lines 423-437). -/
def check_ignore_original_ps_resource (L : NodeResourceLimit)
    (s : JobResourceOptimizerState) (num : Nat) (cpu : Rat) (mem : Nat) :
    Nat × Rat × Nat :=
  let num := if 0 < s.original_ps_resource.count then
    s.original_ps_resource.count else num
  let mem := if L.min_valid_memory ≤
      s.original_ps_resource.node_resource.memory then
    s.original_ps_resource.node_resource.memory else mem
  let cpu := if L.min_valid_cpu ≤
      s.original_ps_resource.node_resource.cpu then
    s.original_ps_resource.node_resource.cpu else cpu
  (num, cpu, mem)

/-- JobResourceOptimizer._verify_optimized_group_resource (resource/job.py
lines 380-403).  Reads plan.node_group_resources[node_type] (KeyError when
the key is absent), filters through the user-pinned originals, writes the
live group resource (PS count additionally clamped to MAX_PS_NUM) and
writes the filtered values back into the plan group. -/
def verify_optimized_group_resource (L : NodeResourceLimit)
    (s : JobResourceOptimizerState) (plan : ResourcePlan)
    (node_type : NodeType) :
    Except PyError (JobResourceOptimizerState × ResourcePlan) :=
  match node_type with
  | .worker =>
    match plan.worker_group with
    | none => .error .keyError
    | some group =>
      let r := check_ignore_original_worker_resource L s
        group.count group.node_resource.cpu group.node_resource.memory
      .ok ({ s with worker_resource := ⟨r.1, ⟨r.2.1, r.2.2⟩⟩ },
        { plan with worker_group := some ⟨r.1, ⟨r.2.1, r.2.2⟩⟩ })
  | .ps =>
    match plan.ps_group with
    | none => .error .keyError
    | some group =>
      let r := check_ignore_original_ps_resource L s
        group.count group.node_resource.cpu group.node_resource.memory
      .ok ({ s with ps_resource := ⟨min r.1 L.max_ps_num, ⟨r.2.1, r.2.2⟩⟩ },
        { plan with ps_group := some ⟨r.1, ⟨r.2.1, r.2.2⟩⟩ })
  | _ =>
    -- plan.node_group_resources holds only worker and ps groups, so the
    -- subscript raises KeyError for any other node type.
    .error .keyError

/-- JobResourceOptimizer._get_worker_resource_at_init_phase (resource/job.py
lines 341-351): asks for a plan at stage WORKER_INITIAL with phase INITIAL
and converts an empty plan to None. -/
def get_worker_resource_at_init_phase (opt : ResourceOptimizer) :
    Option ResourcePlan :=
  let plan := opt.generate_opt_plan .workerInitial (some .initial)
  if plan.empty then none else some plan

/-- JobResourceOptimizer._get_worker_resource_at_sample_phase (lines
353-361).  The Python guard `if not plan` is never taken because the
optimizer always returns a (possibly empty) plan object, which is truthy. -/
def get_worker_resource_at_sample_phase (opt : ResourceOptimizer) :
    ResourcePlan :=
  opt.generate_opt_plan .workerInitial (some .sample)

/-- JobResourceOptimizer._get_worker_resource_at_stable_phase (lines
363-371); same truthiness remark as the sample phase. -/
def get_worker_resource_at_stable_phase (opt : ResourceOptimizer) :
    ResourcePlan :=
  opt.generate_opt_plan .workerInitial (some .stable)

/-- JobResourceOptimizer._get_worker_resource_at_running (lines 333-339):
sample phase on the first call after entering RUNNING, stable afterwards,
tracked by optimize_worker_sampled. -/
def get_worker_resource_at_running (opt : ResourceOptimizer)
    (s : JobResourceOptimizerState) :
    ResourcePlan × JobResourceOptimizerState :=
  if s.optimize_worker_sampled = false then
    (get_worker_resource_at_sample_phase opt,
      { s with optimize_worker_sampled := true })
  else
    (get_worker_resource_at_stable_phase opt, s)

/-- JobResourceOptimizer._get_ps_resource_plan (lines 373-378): asks for a
plan at the current job stage with an empty config. -/
def get_ps_resource_plan (opt : ResourceOptimizer)
    (s : JobResourceOptimizerState) : ResourcePlan :=
  opt.generate_opt_plan s.job_stage none

/-- JobResourceOptimizer.get_job_resource_plan (resource/job.py lines
309-331).  In stage WORKER_INITIAL the init-phase helper returns None for an
empty plan and the stage advances to PS_INITIAL; in PS_INITIAL a PS plan is
requested and the stage advances to RUNNING; in RUNNING a PS plan is
requested first and, when it is empty, a worker plan.  The subsequent
`plan.empty()` dereference raises AttributeError whenever plan is None
(WORKER_INITIAL with an empty optimizer plan, or stage CREATE).  On the
error path the Python object has already advanced its stage; no claim
observes the post-crash state, so the embedding returns only the error. -/
def get_job_resource_plan (L : NodeResourceLimit) (opt : ResourceOptimizer)
    (s : JobResourceOptimizerState) :
    Except PyError (Option ResourcePlan × JobResourceOptimizerState) :=
  let step : Option ResourcePlan × JobResourceOptimizerState :=
    match s.job_stage with
    | .workerInitial =>
      (get_worker_resource_at_init_phase opt,
        { s with job_stage := .psInitial })
    | .psInitial =>
      (some (get_ps_resource_plan opt s), { s with job_stage := .running })
    | .running =>
      let plan := get_ps_resource_plan opt s
      if plan.empty then
        let (wplan, s) := get_worker_resource_at_running opt s
        (some wplan, s)
      else
        (some plan, s)
    | .create => (none, s)
  match step with
  | (none, _) => .error .attributeError
  | (some plan, s) =>
    if plan.empty then .ok (none, s)
    else do
      let (s, plan) ←
        if plan.worker_group.isSome then
          verify_optimized_group_resource L s plan .worker
        else .ok (s, plan)
      let (s, plan) ←
        if plan.ps_group.isSome then
          verify_optimized_group_resource L s plan .ps
        else .ok (s, plan)
      .ok (some (plan.adjust_plan_by_context L), s)

/-- JobResourceOptimizer.optimize_worker_resource (resource/job.py lines
189-197): applies the init-phase worker plan to the live worker resource
WITHOUT the user-override filter.  NodeGroupResource.update (common/node.py,
not part of src) is modelled from the spec as overwriting count, cpu and
memory with the plan values (spec 4.4 applies the plan to the live group). -/
def optimize_worker_resource (opt : ResourceOptimizer)
    (s : JobResourceOptimizerState) : JobResourceOptimizerState :=
  match get_worker_resource_at_init_phase opt with
  | some plan =>
    match plan.worker_group with
    | some group =>
      { s with worker_resource :=
          ⟨group.count, ⟨group.node_resource.cpu,
            group.node_resource.memory⟩⟩ }
    | none => s
  | none => s

/-- A node with its configured resource (common/node.py Node, the two fields
read by resource/job.py). -/
structure PodNode where
  name : String
  config_resource : NodeResource
deriving DecidableEq, Repr

/-- JobResourceOptimizer.adjust_oom_worker_resource (resource/job.py lines
235-270).  cur_mem is captured before the branch; in WORKER_INITIAL with
easydl worker enabled a nonempty OOM-recovery plan raises the live worker
memory to max(current, recovered); otherwise optimize_worker_resource runs;
then the node memory becomes int(max(live memory, cur_mem * factor,
original memory)), truncation coinciding with the floor since all values
are nonnegative. -/
def adjust_oom_worker_resource_branch (ctx : DlroverContext)
    (opt : ResourceOptimizer) (s : JobResourceOptimizerState)
    (node : PodNode) : Except PyError JobResourceOptimizerState :=
  if ctx.easydl_worker_enabled = true ∧ s.job_stage = .workerInitial then
    let plan := opt.generate_oom_recovery_plan [node.name] .create
    if plan.empty then .ok s
    else
      match plan.worker_group with
      | none => .error .keyError
      | some group =>
        .ok { s with worker_resource :=
          { s.worker_resource with node_resource :=
            { s.worker_resource.node_resource with memory :=
              (max s.worker_resource.node_resource.memory
                group.node_resource.memory) } } }
  else
    .ok (optimize_worker_resource opt s)

/-- The final node memory written by adjust_oom_worker_resource:
int(max(live worker memory, cur_mem * factor, original memory)).  Python
truncates the float maximum toward zero; every operand is nonnegative and
the two int operands are unchanged by the truncation, so
int(max(a, q, b)) = max(a, floor q, b), and floor(cur * num/den) is the
natural-number division (cur * num) / den exactly. -/
def oom_incremented_memory (L : NodeResourceLimit) (liveMem : Nat)
    (curMem : Nat) (origMem : Nat) : Nat :=
  max (max liveMem (curMem * L.inc_factor_num / L.inc_factor_den)) origMem

def adjust_oom_worker_resource (L : NodeResourceLimit)
    (ctx : DlroverContext) (opt : ResourceOptimizer)
    (s : JobResourceOptimizerState) (node : PodNode) :
    Except PyError (JobResourceOptimizerState × PodNode) :=
  match adjust_oom_worker_resource_branch ctx opt s node with
  | .error e => .error e
  | .ok s2 =>
    let newMem := oom_incremented_memory L
      s2.worker_resource.node_resource.memory
      node.config_resource.memory
      s.original_worker_resource.node_resource.memory
    .ok (s2, { node with config_resource :=
      { node.config_resource with memory := newMem } })

/-- Concrete limits for evaluation: MIN_VALID_CPU 1 core, MIN_VALID_MEMORY
1024 MiB, MAX_PS_NUM 15, INCREMENTAL_MEMORY_FACTOR 3/2, MAX_MEMORY
65536 MiB. -/
def sampleLimits : NodeResourceLimit := ⟨1, 1024, 15, 3, 2, 65536⟩

/-- A concrete optimizer state: user pinned 4 workers with 4 cpu / 8192 MiB
and 16 PS with 2 cpu / 4096 MiB. -/
def sampleState : JobResourceOptimizerState :=
  { worker_resource := ⟨4, ⟨4, 8192⟩⟩
    ps_resource := ⟨3, ⟨2, 4096⟩⟩
    original_worker_resource := ⟨4, ⟨4, 8192⟩⟩
    original_ps_resource := ⟨16, ⟨2, 4096⟩⟩
    job_stage := .running
    optimized_ps_mem := false
    optimize_worker_sampled := false }

/-- An optimizer with no recommendation at any stage: every plan it returns
is empty (the contract of both Local and Brain optimizers when they have
nothing to propose). -/
def emptyOptimizer : ResourceOptimizer :=
  ⟨fun _ _ => ⟨none, none, []⟩, fun _ _ => ⟨none, none, []⟩⟩

/-- sampleState at stage WORKER_INITIAL. -/
def sampleStateAtWorkerInitial : JobResourceOptimizerState :=
  { sampleState with job_stage := .workerInitial }

/-- C2: in stage WORKER_INITIAL with an optimizer that yields an empty plan,
_get_worker_resource_at_init_phase returns None and the subsequent
plan.empty() dereference raises AttributeError instead of returning None,
contradicting the claimed empty-plan behavior (the code guards plan for
None at the PS check but not at the empty check). -/
theorem get_job_resource_plan_empty_initial_plan_raises :
    get_job_resource_plan sampleLimits emptyOptimizer
      sampleStateAtWorkerInitial = .error .attributeError := rfl

theorem oom_incremented_memory_ge (L : NodeResourceLimit)
    (live cur orig : Nat) (hden : 0 < L.inc_factor_den)
    (hfac : L.inc_factor_den ≤ L.inc_factor_num) :
    cur ≤ oom_incremented_memory L live cur orig := by
  have h1 : cur ≤ cur * L.inc_factor_num / L.inc_factor_den := by
    rw [Nat.le_div_iff_mul_le hden]
    exact Nat.mul_le_mul_left cur hfac
  calc cur ≤ cur * L.inc_factor_num / L.inc_factor_den := h1
    _ ≤ max live (cur * L.inc_factor_num / L.inc_factor_den) :=
        le_max_right _ _
    _ ≤ oom_incremented_memory L live cur orig := le_max_left _ _

/-- C3: adjust_oom_worker_resource never decreases the node's configured
memory; the resulting node memory is exactly int(max(live worker memory,
old node memory * INCREMENTAL_MEMORY_FACTOR, original worker memory)),
the live worker memory being the one after the call; and in stage
WORKER_INITIAL with easydl worker enabled and a nonempty OOM-recovery plan
the live worker memory is first raised to the max of its current value and
the plan's recovered worker memory. -/
theorem adjust_oom_worker_resource_memory_contract
    (L : NodeResourceLimit) (ctx : DlroverContext)
    (opt : ResourceOptimizer) (s : JobResourceOptimizerState)
    (node : PodNode) (hden : 0 < L.inc_factor_den)
    (hfac : L.inc_factor_den ≤ L.inc_factor_num) :
    ∀ s2 node2,
      adjust_oom_worker_resource L ctx opt s node = .ok (s2, node2) →
      node.config_resource.memory ≤ node2.config_resource.memory ∧
      node2.config_resource.memory = oom_incremented_memory L
        s2.worker_resource.node_resource.memory
        node.config_resource.memory
        s.original_worker_resource.node_resource.memory ∧
      (ctx.easydl_worker_enabled = true → s.job_stage = .workerInitial →
        (opt.generate_oom_recovery_plan [node.name] .create).empty = false →
        ∀ g,
          (opt.generate_oom_recovery_plan [node.name] .create).worker_group
            = some g →
          s2.worker_resource.node_resource.memory =
            max s.worker_resource.node_resource.memory
              g.node_resource.memory) := by
  intro s2 node2 h
  cases hb : adjust_oom_worker_resource_branch ctx opt s node with
  | error e => simp [adjust_oom_worker_resource, hb] at h
  | ok s1 =>
    simp only [adjust_oom_worker_resource, hb, Except.ok.injEq,
      Prod.mk.injEq] at h
    obtain ⟨hs1, hnode⟩ := h
    subst hs1
    subst hnode
    refine ⟨oom_incremented_memory_ge L _ _ _ hden hfac, rfl, ?_⟩
    intro hE hS hNE g hG
    simp only [adjust_oom_worker_resource_branch, hE, hS, and_self,
      if_true, hNE, hG, Bool.false_eq_true, if_false, Except.ok.injEq] at hb
    subst hb
    rfl

/-- An optimizer whose OOM-recovery plan proposes 12288 MiB worker memory,
matching the spec's OOM escalation scenario. -/
def sampleOomOptimizer : ResourceOptimizer :=
  ⟨fun _ _ => ⟨none, none, []⟩, fun _ _ => ⟨some ⟨0, ⟨0, 12288⟩⟩, none, []⟩⟩

/-- A worker node configured with 4 cpu and 8192 MiB. -/
def sampleNode : PodNode := ⟨"worker-0", ⟨4, 8192⟩⟩

theorem adjust_oom_worker_resource_memory_contract_checked :
    ∃ s2 node2,
      adjust_oom_worker_resource sampleLimits ⟨true, true⟩
        sampleOomOptimizer sampleStateAtWorkerInitial sampleNode
        = .ok (s2, node2) ∧
      sampleNode.config_resource.memory ≤ node2.config_resource.memory := by
  refine ⟨_, _, rfl, ?_⟩
  exact ((adjust_oom_worker_resource_memory_contract sampleLimits
    ⟨true, true⟩ sampleOomOptimizer sampleStateAtWorkerInitial sampleNode
    (by decide) (by decide)) _ _ rfl).1

/-- Protobuf task types (dlrover.proto.elastic_training_pb2), restricted
to the enum members the embedded modules read.  The proto default value is
NONE. -/
inductive PbTaskType where
  | none_
  | training
  | evaluation
  | prediction
  | wait_
deriving DecidableEq, Repr

/-- A data shard: name, [start, stop) range and optional record indices.
The Python field end is renamed stop (Lean keyword). -/
structure TaskShard where
  shard_name : String
  start : Int
  stop : Int
  record_indices : List Int
deriving DecidableEq, Repr

/-- A shard task as dispatched to a worker. -/
structure ShardTask where
  task_id : Nat
  task_type : PbTaskType
  shard : TaskShard
deriving DecidableEq, Repr

/-- A task currently assigned: the task plus the worker holding it.
Timestamps (Python floats born from time.time()) are only ever subtracted
and compared in the embedded code, so they are embedded as integers. -/
structure DoingTask where
  task : ShardTask
  node_type : NodeType
  node_id : Nat
  start_time : Int
deriving DecidableEq, Repr

/-- Modelled from the spec: the per-dataset manager surface used by
task_manager.py (BatchDatasetManager and the DatasetManger base class are
not part of src).  It carries the constructor arguments
(task_type, batch_size, splitter handle) plus the doing map in insertion
order, the latest task end time and the completion flag (spec data
model, 4.2). -/
structure DatasetManger where
  task_type : PbTaskType
  batch_size : Int
  splitter : Nat
  doing : List (Nat × DoingTask)
  latest_task_end_time : Int
  is_completed : Bool
deriving DecidableEq, Repr

/-- BatchDatasetManager(task_type, batch_size, dataset_splitter) as called
by new_dataset: fresh queues, zero end time, not completed. -/
def newBatchDatasetManager (task_type : PbTaskType) (batch_size : Int)
    (splitter : Nat) : DatasetManger :=
  ⟨task_type, batch_size, splitter, [], 0, false⟩

/-- The TaskManager fields the embedded methods read: the timeout, the
ordered dataset map and worker_start_task_time. -/
structure TaskManager where
  task_process_timeout : Int
  datasets : List (String × DatasetManger)
  worker_start_task_time : List (Nat × Int)
deriving DecidableEq, Repr

/-- TaskManager.new_dataset (task_manager.py lines 58-91): a name already
present is ignored (idempotence); then dataset_size < 0 is rejected as a
no-op (note the guard tests < 0 although its own error message says
dataset size <= 0); otherwise a BatchDatasetManager is created and
published under the name. -/
def TaskManager.new_dataset (tm : TaskManager) (batch_size : Int)
    (dataset_size : Int) (dataset_name : String) (splitter : Nat)
    (task_type : PbTaskType) : TaskManager :=
  if (tm.datasets.lookup dataset_name).isSome then tm
  else if dataset_size < 0 then tm
  else { tm with datasets := tm.datasets ++
    [(dataset_name, newBatchDatasetManager task_type batch_size splitter)] }

/-- TaskManager.task_hanged (task_manager.py lines 144-155): collect one
boolean per dataset (non-zero end time and now - end time beyond the
timeout); an empty collection returns False, otherwise the conjunction. -/
def TaskManager.task_hanged (tm : TaskManager) (now : Int) : Bool :=
  let dataset_hang := tm.datasets.map (fun p =>
    decide (0 < p.2.latest_task_end_time ∧
      tm.task_process_timeout < now - p.2.latest_task_end_time))
  if dataset_hang.isEmpty then false else dataset_hang.all id

/-- The inner per-dataset loop of _check_and_reassign_timeout_tasks
(task_manager.py lines 230-245): walk the copied doing items in order; at
the first EVALUATION task whose cur - start exceeds the timeout, report
the task failed, invoke the timeout callbacks with its node id and break.
The action is returned as (task_id, node_id), none when no task times out;
start defaults to cur when the node id is absent from
worker_start_task_time (dict.get(node_id, cur)). -/
def scan_timeout_tasks (timeout : Int) (wstt : List (Nat × Int))
    (cur : Int) : List (Nat × DoingTask) → Option (Nat × Nat)
  | [] => none
  | (task_id, doing_task) :: rest =>
    let start := (wstt.lookup doing_task.node_id).getD cur
    if doing_task.task.task_type = .evaluation ∧ timeout < cur - start then
      some (task_id, doing_task.node_id)
    else
      scan_timeout_tasks timeout wstt cur rest

/-- One pass of the sweeper over all datasets (task_manager.py lines
224-245): each dataset is scanned independently and contributes at most
its first timed-out EVALUATION task. -/
def sweep_timeout_pass (tm : TaskManager) (cur : Int) :
    List (String × Option (Nat × Nat)) :=
  tm.datasets.map (fun p =>
    (p.1, scan_timeout_tasks tm.task_process_timeout
      tm.worker_start_task_time cur p.2.doing))

/-- A checkpoint blob as parsed by DatasetShardCheckpoint.from_json
(base_dataset_manager is not part of src); restore_dataset_from_checkpoint
only observes the dataset name. -/
structure DatasetShardCheckpoint where
  dataset_name : String
deriving DecidableEq, Repr

/-- The try body of TaskManager.restore_dataset_from_checkpoint
(task_manager.py lines 264-281), collaborators abstracted: parse is the
outcome of DatasetShardCheckpoint.from_json (none when it raises) and
restore the outcome of dataset.restore_checkpoint (error when it raises).
A parse failure raises; a missing dataset is only logged, after which the
restore_checkpoint call on None raises AttributeError; a raising
restoration propagates; otherwise the body returns True. -/
def restore_body (tm : TaskManager)
    (parse : Option DatasetShardCheckpoint)
    (restore : DatasetManger → DatasetShardCheckpoint → Except PyError Unit) :
    Except PyError Bool :=
  match parse with
  | none => .error .valueError
  | some ckpt =>
    match tm.datasets.lookup ckpt.dataset_name with
    | none => .error .attributeError
    | some ds =>
      match restore ds ckpt with
      | .error e => .error e
      | .ok _ => .ok true

/-- TaskManager.restore_dataset_from_checkpoint: the except block converts
every exception raised by the body into the return value False. -/
def TaskManager.restore_dataset_from_checkpoint (tm : TaskManager)
    (parse : Option DatasetShardCheckpoint)
    (restore : DatasetManger → DatasetShardCheckpoint → Except PyError Unit) :
    Bool :=
  match restore_body tm parse restore with
  | .ok b => b
  | .error _ => false

/-- A fresh TaskManager with a 60 s task process timeout. -/
def emptyTaskManager : TaskManager := ⟨60, [], []⟩

/-- C4: the claim (echoing the spec and the code's own error message
"dataset size <= 0") says dataset_size <= 0 creates no dataset, but the
guard in new_dataset tests dataset_size < 0: at size 0 with a fresh name a
dataset IS created and published. -/
theorem new_dataset_creates_dataset_for_zero_size :
    ((emptyTaskManager.new_dataset 32 0 "train" 0 .training).datasets.lookup
      "train").isSome = true := by decide

/-- C8 counterexample: with no datasets the universally quantified hang
predicate of the claim is vacuously true, yet task_hanged returns false
(the code special-cases the empty collection). -/
theorem task_hanged_empty_datasets_counterexample :
    emptyTaskManager.task_hanged 1000 = false ∧
    ∀ p ∈ emptyTaskManager.datasets,
      0 < p.2.latest_task_end_time ∧
      emptyTaskManager.task_process_timeout
        < 1000 - p.2.latest_task_end_time := by
  refine ⟨rfl, ?_⟩
  intro p hp
  simp [emptyTaskManager] at hp

/-- C8 (amended): task_hanged returns true iff the manager holds at least
one dataset and every dataset has a positive latest_task_end_time with
now - latest_task_end_time above task_process_timeout; in particular it is
false, not vacuously true, when no dataset exists. -/
theorem task_hanged_iff_nonempty_and_all_hang (tm : TaskManager)
    (now : Int) :
    tm.task_hanged now = true ↔
      tm.datasets ≠ [] ∧
      ∀ p ∈ tm.datasets,
        0 < p.2.latest_task_end_time ∧
        tm.task_process_timeout < now - p.2.latest_task_end_time := by
  unfold TaskManager.task_hanged
  cases h : tm.datasets with
  | nil => simp
  | cons a l =>
    simp [List.all_eq_true, decide_eq_true_iff]
    intro _ _
    constructor <;> intro hall x y hxy <;> have := hall x y hxy <;> omega

theorem scan_timeout_tasks_sound (timeout : Int)
    (wstt : List (Nat × Int)) (cur : Int)
    (doing : List (Nat × DoingTask)) :
    ∀ task_id node_id,
      scan_timeout_tasks timeout wstt cur doing = some (task_id, node_id) →
      ∃ dt, (task_id, dt) ∈ doing ∧ dt.node_id = node_id ∧
        dt.task.task_type = .evaluation ∧
        timeout < cur - ((wstt.lookup dt.node_id).getD cur) := by
  induction doing with
  | nil =>
    intro t n h
    simp [scan_timeout_tasks] at h
  | cons hd tl ih =>
    intro t n h
    obtain ⟨tid, dt⟩ := hd
    simp only [scan_timeout_tasks] at h
    split at h
    · rename_i hc
      obtain ⟨h1, h2⟩ := hc
      obtain ⟨ht, hn⟩ := Prod.mk.injEq .. ▸ Option.some.injEq .. ▸ h
      exact ⟨dt, by rw [← ht]; exact List.mem_cons_self _ _,
        hn, h1, h2⟩
    · obtain ⟨dt2, hmem, hrest⟩ := ih t n h
      exact ⟨dt2, List.mem_cons_of_mem _ hmem, hrest⟩

/-- C7: any action emitted by one sweeper pass concerns a task of the
dataset's doing map whose type is EVALUATION and whose worker's recorded
start time satisfies cur - start > task_process_timeout; and each dataset
contributes at most one action per pass (the loop breaks at the first
hit, embedded as the single optional action per dataset). -/
theorem sweep_pass_reports_only_timed_out_evaluation (tm : TaskManager)
    (cur : Int) :
    ∀ dname act, (dname, act) ∈ sweep_timeout_pass tm cur →
      ∀ task_id node_id, act = some (task_id, node_id) →
        ∃ ds, (dname, ds) ∈ tm.datasets ∧
        ∃ dt, (task_id, dt) ∈ ds.doing ∧ dt.node_id = node_id ∧
          dt.task.task_type = .evaluation ∧
          tm.task_process_timeout <
            cur - ((tm.worker_start_task_time.lookup dt.node_id).getD cur)
    := by
  intro dname act hmem task_id node_id hact
  obtain ⟨p, hp, heq⟩ := List.mem_map.mp hmem
  have h1 : p.1 = dname := congrArg Prod.fst heq
  have h2 : scan_timeout_tasks tm.task_process_timeout
      tm.worker_start_task_time cur p.2.doing = act :=
    congrArg Prod.snd heq
  subst hact
  obtain ⟨dt, hdt, hnid, htype, htime⟩ :=
    scan_timeout_tasks_sound tm.task_process_timeout
      tm.worker_start_task_time cur p.2.doing task_id node_id h2
  refine ⟨p.2, ?_, dt, hdt, hnid, htype, htime⟩
  rw [← h1]
  simpa using hp

/-- A TaskManager holding one evaluation dataset with a single doing task
assigned to worker 3, which started at time 10. -/
def sweepSampleTaskManager : TaskManager :=
  ⟨60,
    [("val", ⟨.evaluation, 32, 0,
      [(7, ⟨⟨7, .evaluation, ⟨"val-shard-7", 0, 100, []⟩⟩, .worker, 3, 10⟩)],
      0, false⟩)],
    [(3, 10)]⟩

theorem sweep_pass_reports_only_timed_out_evaluation_checked :
    ("val", some (7, 3)) ∈ sweep_timeout_pass sweepSampleTaskManager 100 ∧
    ∃ ds, ("val", ds) ∈ sweepSampleTaskManager.datasets ∧
    ∃ dt, (7, dt) ∈ ds.doing ∧ dt.node_id = 3 ∧
      dt.task.task_type = .evaluation ∧
      sweepSampleTaskManager.task_process_timeout <
        100 - ((sweepSampleTaskManager.worker_start_task_time.lookup
          dt.node_id).getD 100) := by
  refine ⟨by decide, ?_⟩
  exact sweep_pass_reports_only_timed_out_evaluation
    sweepSampleTaskManager 100 "val" (some (7, 3)) (by decide) 7 3 rfl

/-- C9: restore_dataset_from_checkpoint never propagates a failure — a
parse failure, a missing dataset (whose AttributeError is swallowed by the
except block) and a raising restoration all yield False — and it returns
True exactly when the blob parses, the named dataset exists and its
restoration succeeds. -/
theorem restore_checkpoint_true_iff_restoration_succeeds
    (tm : TaskManager) (parse : Option DatasetShardCheckpoint)
    (restore : DatasetManger → DatasetShardCheckpoint →
      Except PyError Unit) :
    tm.restore_dataset_from_checkpoint parse restore = true ↔
      ∃ ckpt, parse = some ckpt ∧
      ∃ ds, tm.datasets.lookup ckpt.dataset_name = some ds ∧
        restore ds ckpt = .ok () := by
  unfold TaskManager.restore_dataset_from_checkpoint restore_body
  cases parse with
  | none => simp
  | some ckpt =>
    cases h : tm.datasets.lookup ckpt.dataset_name with
    | none => simp [h]
    | some ds =>
      cases hr : restore ds ckpt with
      | error e => simp [h, hr]
      | ok u =>
        obtain ⟨⟩ := u
        simp [h, hr]

/-- Configuration the servicer reads from its constructor arguments and
the global context: whether a node manager / metric collector were
provided, and the two autoscale thresholds. -/
structure ServicerConfig where
  has_node_manager : Bool
  has_collector : Bool
  seconds_to_autoscale_worker : Int
  sample_count_to_adjust_worker : Nat
deriving DecidableEq, Repr

/-- The mutable MasterServicer fields (servicer.py __init__): the model
version, the start-of-training timestamp and the autoscale latch; plus
the TaskManager's worker_start_task_time map, which get_task resets for
the calling worker. -/
structure ServicerState where
  version : Nat
  start_training_time : Option Int
  start_autoscale : Bool
  worker_start_task_time : List (Nat × Int)
deriving DecidableEq, Repr

/-- MasterServicer._check_start_auto_scale_worker (servicer.py lines
309-320).  The second component counts the node_manager.start_auto_scale()
invocations made by the call. -/
def check_start_auto_scale_worker (cfg : ServicerConfig)
    (sample_count : Nat) (s : ServicerState) : ServicerState × Nat :=
  if s.start_autoscale = false ∧
      cfg.sample_count_to_adjust_worker ≤ sample_count then
    ({ s with start_autoscale := true }, 1)
  else (s, 0)

/-- Per-call environment of report_task_result: whether
report_dataset_task succeeds (it raises ValueError on an unknown dataset),
whether the reported task is a PREDICTION task, the perf monitor's
completed global step, the wall clock, and the sample count read by
_check_start_auto_scale_worker. -/
structure TaskResultEnv where
  report_ok : Bool
  is_prediction : Bool
  completed_global_step : Nat
  now : Int
  sample_count : Nat
deriving DecidableEq, Repr

/-- The time comparison of the non-training trigger once
_start_training_time holds t: fire and latch when now - t exceeds
seconds_to_autoscale_worker. -/
def trigger_time_check (cfg : ServicerConfig) (e : TaskResultEnv)
    (s : ServicerState) (t : Int) :
    Except PyError (ServicerState × Nat × Bool) :=
  if cfg.seconds_to_autoscale_worker < e.now - t then
    .ok ({ s with start_autoscale := true }, 1, true)
  else .ok (s, 0, false)

/-- The non-training autoscale trigger of report_task_result (servicer.py
lines 72-81): when the latch is down, a node manager exists and the
completed global step is zero, evaluate now - _start_training_time >
seconds_to_autoscale_worker — a TypeError when _start_training_time is
still None — and on success raise the latch and call start_auto_scale
once.  Returns (state, invocation count, fired). -/
def non_training_trigger (cfg : ServicerConfig) (e : TaskResultEnv)
    (s : ServicerState) : Except PyError (ServicerState × Nat × Bool) :=
  if s.start_autoscale = false ∧ cfg.has_node_manager = true ∧
      e.completed_global_step = 0 then
    match s.start_training_time with
    | none => .error .typeError
    | some t => trigger_time_check cfg e s t
  else .ok (s, 0, false)

/-- The PREDICTION branch of report_task_result (servicer.py lines 83-88):
with a metric collector present and a PREDICTION task reported,
_check_start_auto_scale_worker runs on the state the trigger left behind.
(When report_dataset_task yields no task the attribute access on None
raises after the trigger; that path mutates nothing further and so
coincides with the false branch for the embedded state and count.) -/
def prediction_autoscale_check (cfg : ServicerConfig) (e : TaskResultEnv)
    (r : ServicerState × Nat × Bool) : ServicerState × Nat × Bool :=
  if cfg.has_collector = true ∧ e.is_prediction = true then
    let c := check_start_auto_scale_worker cfg e.sample_count r.1
    (c.1, r.2.1 + c.2, r.2.2)
  else r

/-- MasterServicer.report_task_result (servicer.py lines 66-89).  Returns
the new state, the number of start_auto_scale invocations, and whether
the non-training autoscale trigger fired.  The exception paths — the
ValueError of report_dataset_task and the TypeError inside the trigger
condition — abort the handler before any servicer-state mutation. -/
def report_task_result (cfg : ServicerConfig) (e : TaskResultEnv)
    (s : ServicerState) : Except PyError (ServicerState × Nat × Bool) :=
  if e.report_ok = false then .error .valueError
  else
    match non_training_trigger cfg e s with
    | .error err => .error err
    | .ok r => .ok (prediction_autoscale_check cfg e r)

/-- MasterServicer.report_global_step (servicer.py lines 294-300): the
perf-monitor feed and runtime-stat collection do not touch the embedded
state; the autoscale check does. -/
def report_global_step (cfg : ServicerConfig) (sample_count : Nat)
    (s : ServicerState) : ServicerState × Nat :=
  check_start_auto_scale_worker cfg sample_count s

/-- One incoming RPC relevant to the autoscale latch. -/
inductive ServicerEvent where
  | taskResult (e : TaskResultEnv)
  | globalStep (sample_count : Nat)
deriving DecidableEq, Repr

/-- Dispatch one event.  A handler exception leaves the embedded state
unchanged (no mutation precedes the raise points) and the grpc server
keeps serving, so the run continues from the same state. -/
def servicer_step (cfg : ServicerConfig) (s : ServicerState)
    (ev : ServicerEvent) : ServicerState × Nat :=
  match ev with
  | .taskResult e =>
    match report_task_result cfg e s with
    | .error _ => (s, 0)
    | .ok (s2, n, _) => (s2, n)
  | .globalStep sc => report_global_step cfg sc s

/-- A sequence of RPCs, returning the final state and the total number of
start_auto_scale invocations. -/
def servicer_run (cfg : ServicerConfig) (s : ServicerState) :
    List ServicerEvent → ServicerState × Nat
  | [] => (s, 0)
  | ev :: rest =>
    let r := servicer_step cfg s ev
    let r2 := servicer_run cfg r.1 rest
    (r2.1, r.2 + r2.2)

theorem check_start_auto_scale_worker_latch (cfg : ServicerConfig)
    (sc : Nat) (s : ServicerState) :
    (check_start_auto_scale_worker cfg sc s).2 ≤ 1 ∧
    (s.start_autoscale = true →
      check_start_auto_scale_worker cfg sc s = (s, 0)) ∧
    ((check_start_auto_scale_worker cfg sc s).2 = 0 →
      (check_start_auto_scale_worker cfg sc s).1.start_autoscale
        = s.start_autoscale) ∧
    (1 ≤ (check_start_auto_scale_worker cfg sc s).2 →
      (check_start_auto_scale_worker cfg sc s).1.start_autoscale = true)
    := by
  unfold check_start_auto_scale_worker
  split
  · rename_i hc
    exact ⟨le_refl 1, fun ht => absurd ht (by simp [hc.1]),
      fun h0 => absurd h0 one_ne_zero, fun _ => rfl⟩
  · exact ⟨Nat.zero_le 1, fun _ => rfl, fun _ => rfl,
      fun h1 => absurd h1 (by simp)⟩

theorem non_training_trigger_latch (cfg : ServicerConfig)
    (e : TaskResultEnv) (s : ServicerState) :
    ∀ s1 n fired, non_training_trigger cfg e s = .ok (s1, n, fired) →
      n ≤ 1 ∧
      (s.start_autoscale = true → s1 = s ∧ n = 0) ∧
      (n = 0 → s1 = s) ∧
      (1 ≤ n → s1.start_autoscale = true) ∧
      (fired = true →
        s.start_autoscale = false ∧ e.completed_global_step = 0 ∧
        ∃ t, s.start_training_time = some t ∧
          cfg.seconds_to_autoscale_worker < e.now - t) := by
  intro s1 n fired h
  unfold non_training_trigger at h
  by_cases hcond : s.start_autoscale = false ∧
      cfg.has_node_manager = true ∧ e.completed_global_step = 0
  · rw [if_pos hcond] at h
    cases hstt : s.start_training_time with
    | none =>
      rw [hstt] at h
      exact absurd h (by simp)
    | some t =>
      rw [hstt] at h
      have h2 : trigger_time_check cfg e s t = .ok (s1, n, fired) := h
      unfold trigger_time_check at h2
      by_cases htime : cfg.seconds_to_autoscale_worker < e.now - t
      · rw [if_pos htime] at h2
        simp only [Except.ok.injEq, Prod.mk.injEq] at h2
        obtain ⟨hs1, hn, hf⟩ := h2
        subst hs1; subst hn
        exact ⟨le_refl 1,
          fun hT => absurd hT (by simp [hcond.1]),
          fun h0 => absurd h0 one_ne_zero,
          fun _ => rfl,
          fun _ => ⟨hcond.1, hcond.2.2, t, rfl, htime⟩⟩
      · rw [if_neg htime] at h2
        simp only [Except.ok.injEq, Prod.mk.injEq] at h2
        obtain ⟨hs1, hn, hf⟩ := h2
        subst hs1; subst hn; subst hf
        exact ⟨Nat.zero_le 1, fun _ => ⟨rfl, rfl⟩, fun _ => rfl,
          fun h1 => absurd h1 (by simp),
          fun hf => absurd hf (by simp)⟩
  · rw [if_neg hcond] at h
    simp only [Except.ok.injEq, Prod.mk.injEq] at h
    obtain ⟨hs1, hn, hf⟩ := h
    subst hs1; subst hn; subst hf
    exact ⟨Nat.zero_le 1, fun _ => ⟨rfl, rfl⟩, fun _ => rfl,
      fun h1 => absurd h1 (by simp),
      fun hf => absurd hf (by simp)⟩

theorem report_task_result_latch (cfg : ServicerConfig)
    (e : TaskResultEnv) (s : ServicerState) :
    ∀ s2 n fired, report_task_result cfg e s = .ok (s2, n, fired) →
      n ≤ 1 ∧
      (s.start_autoscale = true → s2 = s ∧ n = 0) ∧
      (n = 0 → s2.start_autoscale = s.start_autoscale) ∧
      (1 ≤ n → s2.start_autoscale = true) := by
  intro s2 n fired h
  unfold report_task_result at h
  by_cases hok : e.report_ok = false
  · rw [if_pos hok] at h
    exact absurd h (by simp)
  · rw [if_neg hok] at h
    cases htr : non_training_trigger cfg e s with
    | error err =>
      rw [htr] at h
      exact absurd h (by simp)
    | ok r =>
      obtain ⟨s1, n1, fired1⟩ := r
      have htl := non_training_trigger_latch cfg e s s1 n1 fired1 htr
      rw [htr] at h
      have h3 : (Except.ok (prediction_autoscale_check cfg e
            (s1, n1, fired1)) :
          Except PyError (ServicerState × Nat × Bool))
          = .ok (s2, n, fired) := h
      have h2 := Except.ok.inj h3
      unfold prediction_autoscale_check at h2
      have hcl := check_start_auto_scale_worker_latch cfg e.sample_count s1
      by_cases hpred : cfg.has_collector = true ∧ e.is_prediction = true
      · rw [if_pos hpred] at h2
        simp only [Prod.mk.injEq] at h2
        obtain ⟨hs2, hn, hf⟩ := h2
        subst hs2; subst hn; subst hf
        constructor
        · -- n1 + check.2 ≤ 1: if n1 = 1 the latch is up so check adds 0
          rcases Nat.eq_zero_or_pos n1 with h0 | h1
          · subst h0
            simpa using hcl.1
          · have hn1 : n1 = 1 := le_antisymm (htl.1) h1
            have hflag : s1.start_autoscale = true := htl.2.2.2.1 h1
            rw [hn1, hcl.2.1 hflag]
            exact Nat.le_refl 1
        constructor
        · intro hT
          obtain ⟨hs1eq, hn1eq⟩ := htl.2.1 hT
          subst hs1eq
          rw [hcl.2.1 hT, hn1eq]
          exact ⟨rfl, rfl⟩
        constructor
        · intro h0
          have hn1 : n1 = 0 := by omega
          have hc0 : (check_start_auto_scale_worker cfg
              e.sample_count s1).2 = 0 := by omega
          rw [hcl.2.2.1 hc0, htl.2.2.1 hn1]
        · intro h1
          rcases Nat.eq_zero_or_pos (check_start_auto_scale_worker cfg
              e.sample_count s1).2 with hc0 | hc1
          · have hn1 : 1 ≤ n1 := by omega
            rw [hcl.2.2.1 hc0]
            exact htl.2.2.2.1 hn1
          · exact hcl.2.2.2 hc1
      · rw [if_neg hpred] at h2
        simp only [Prod.mk.injEq] at h2
        obtain ⟨hs2, hn, hf⟩ := h2
        subst hs2; subst hn; subst hf
        refine ⟨htl.1, ?_, ?_, htl.2.2.2.1⟩
        · intro hT
          exact htl.2.1 hT
        · intro h0
          rw [htl.2.2.1 h0]

theorem servicer_step_latch (cfg : ServicerConfig) (s : ServicerState)
    (ev : ServicerEvent) :
    (servicer_step cfg s ev).2 ≤ 1 ∧
    (s.start_autoscale = true → servicer_step cfg s ev = (s, 0)) ∧
    ((servicer_step cfg s ev).2 = 0 →
      (servicer_step cfg s ev).1.start_autoscale = s.start_autoscale) ∧
    (1 ≤ (servicer_step cfg s ev).2 →
      (servicer_step cfg s ev).1.start_autoscale = true) := by
  cases ev with
  | globalStep sc =>
    exact check_start_auto_scale_worker_latch cfg sc s
  | taskResult e =>
    cases hr : report_task_result cfg e s with
    | error err =>
      have hstep : servicer_step cfg s (.taskResult e) = (s, 0) := by
        simp [servicer_step, hr]
      rw [hstep]
      exact ⟨Nat.zero_le 1, fun _ => rfl, fun _ => rfl,
        fun h1 => absurd h1 (by simp)⟩
    | ok r =>
      obtain ⟨s2, n, fired⟩ := r
      have hstep : servicer_step cfg s (.taskResult e) = (s2, n) := by
        simp [servicer_step, hr]
      have hl := report_task_result_latch cfg e s s2 n fired hr
      rw [hstep]
      refine ⟨hl.1, ?_, hl.2.2.1, hl.2.2.2⟩
      intro hT
      obtain ⟨hs2, hn⟩ := hl.2.1 hT
      rw [hs2, hn]

theorem servicer_run_latched (cfg : ServicerConfig) (evs : List ServicerEvent) :
    ∀ s : ServicerState, s.start_autoscale = true →
      (servicer_run cfg s evs).2 = 0 := by
  induction evs with
  | nil => intro s _; rfl
  | cons ev rest ih =>
    intro s h
    have hstep := (servicer_step_latch cfg s ev).2.1 h
    simp only [servicer_run, hstep, Nat.zero_add]
    exact ih s h

theorem servicer_run_at_most_one (cfg : ServicerConfig)
    (evs : List ServicerEvent) :
    ∀ s : ServicerState, s.start_autoscale = false →
      (servicer_run cfg s evs).2 ≤ 1 := by
  induction evs with
  | nil => intro s _; exact Nat.zero_le 1
  | cons ev rest ih =>
    intro s h
    have hlatch := servicer_step_latch cfg s ev
    simp only [servicer_run]
    rcases Nat.lt_or_ge (servicer_step cfg s ev).2 1 with hn | hn
    · have hn0 : (servicer_step cfg s ev).2 = 0 := Nat.lt_one_iff.mp hn
      have hflag : (servicer_step cfg s ev).1.start_autoscale = false :=
        (hlatch.2.2.1 hn0).trans h
      rw [hn0]
      simpa using ih (servicer_step cfg s ev).1 hflag
    · have hn1 : (servicer_step cfg s ev).2 = 1 :=
        le_antisymm hlatch.1 hn
      have hflag : (servicer_step cfg s ev).1.start_autoscale = true :=
        hlatch.2.2.2 hn
      rw [hn1, servicer_run_latched cfg rest _ hflag]

theorem prediction_autoscale_check_keeps_fired (cfg : ServicerConfig)
    (e : TaskResultEnv) (r : ServicerState × Nat × Bool) :
    (prediction_autoscale_check cfg e r).2.2 = r.2.2 := by
  unfold prediction_autoscale_check
  split <;> rfl

/-- C6: starting with the latch down (the constructor state), any sequence
of report_task_result and report_global_step calls invokes
node_manager.start_auto_scale() at most once in total — the
_start_autoscale flag latches — and the non-training trigger of
report_task_result fires only when the latch is down, the completed
global step is zero and now - _start_training_time exceeds
seconds_to_autoscale_worker. -/
theorem autoscale_fires_at_most_once (cfg : ServicerConfig)
    (s : ServicerState) (evs : List ServicerEvent)
    (h : s.start_autoscale = false) :
    (servicer_run cfg s evs).2 ≤ 1 ∧
    (∀ e s0 s2 n, report_task_result cfg e s0 = .ok (s2, n, true) →
      s0.start_autoscale = false ∧ e.completed_global_step = 0 ∧
      ∃ t, s0.start_training_time = some t ∧
        cfg.seconds_to_autoscale_worker < e.now - t) := by
  refine ⟨servicer_run_at_most_one cfg evs s h, ?_⟩
  intro e s0 s2 n hrep
  unfold report_task_result at hrep
  by_cases hok : e.report_ok = false
  · rw [if_pos hok] at hrep
    exact absurd hrep (by simp)
  · rw [if_neg hok] at hrep
    cases htr : non_training_trigger cfg e s0 with
    | error err =>
      rw [htr] at hrep
      exact absurd hrep (by simp)
    | ok r =>
      obtain ⟨s1, n1, fired1⟩ := r
      rw [htr] at hrep
      have h3 : (Except.ok (prediction_autoscale_check cfg e
            (s1, n1, fired1)) :
          Except PyError (ServicerState × Nat × Bool))
          = .ok (s2, n, true) := hrep
      have h2 := Except.ok.inj h3
      have hfired : fired1 = true := by
        have := prediction_autoscale_check_keeps_fired cfg e (s1, n1, fired1)
        rw [h2] at this
        exact this.symm
      subst hfired
      exact (non_training_trigger_latch cfg e s0 s1 n1 true htr).2.2.2.2 rfl

/-- A servicer configuration: node manager and collector present,
autoscale after 1800 s without training, worker adjustment after 5
samples. -/
def autoCfg : ServicerConfig := ⟨true, true, 1800, 5⟩

/-- A servicer state right after training start was recorded at time 0,
latch down. -/
def autoState : ServicerState := ⟨0, some 0, false, []⟩

/-- A successful non-PREDICTION task report at time 2000 with no completed
global step. -/
def autoEnv : TaskResultEnv := ⟨true, false, 0, 2000, 0⟩

theorem autoscale_fires_at_most_once_checked :
    autoState.start_autoscale = false ∧
    (servicer_run autoCfg autoState
      [ServicerEvent.taskResult autoEnv, ServicerEvent.globalStep 9]).2 ≤ 1 ∧
    (servicer_run autoCfg autoState
      [ServicerEvent.taskResult autoEnv, ServicerEvent.globalStep 9]).2 = 1
    := by
  refine ⟨rfl, ?_, rfl⟩
  exact (autoscale_fires_at_most_once autoCfg autoState
    [ServicerEvent.taskResult autoEnv, ServicerEvent.globalStep 9] rfl).1

/-- Python dict assignment d[k] = v on an insertion-ordered association
list: overwrite in place, append when the key is fresh. -/
def set_time : List (Nat × Int) → Nat → Int → List (Nat × Int)
  | [], k, v => [(k, v)]
  | (k2, v2) :: rest, k, v =>
    if k2 = k then (k2, v) :: rest else (k2, v2) :: set_time rest k v

theorem lookup_set_time (l : List (Nat × Int)) (k : Nat) (v : Int) :
    (set_time l k v).lookup k = some v := by
  induction l with
  | nil => simp [set_time, List.lookup]
  | cons hd tl ih =>
    obtain ⟨k2, v2⟩ := hd
    by_cases h : k2 = k
    · subst h
      simp [set_time, List.lookup]
    · have hne : (k == k2) = false := by
        simp [Ne.symm h]
      simp [set_time, h, List.lookup, hne, ih]

/-- Per-call environment of get_task: whether the dataset name is known to
the TaskManager and complete, the task the TaskManager yields (None when
no shard is schedulable), whether a rendezvous server exists, the number
of running workers, and the wall clock. -/
structure GetTaskEnv where
  dataset_known : Bool
  dataset_completed : Bool
  task_yield : Option ShardTask
  has_rendezvous : Bool
  running_workers : Nat
  now : Int
deriving DecidableEq, Repr

/-- The Task message assembled by get_task: id, type, shard fields and
model version (id 0, type NONE and an empty shard are the proto
defaults). -/
structure TaskResponse where
  task_id : Nat
  task_type : PbTaskType
  shard_name : String
  shard_start : Int
  shard_stop : Int
  shard_indices : List Int
  model_version : Nat
deriving DecidableEq, Repr

/-- MasterServicer.get_task (servicer.py lines 91-127).  The first call
initializes _start_training_time; the response starts from an empty shard
and is stamped with the model version; an unknown dataset returns it as
is; a yielded task fills id, type and shard; otherwise an incomplete
dataset yields a WAIT type when there is no rendezvous server, or when
there is one and exactly one running worker remains; finally the caller's
worker_start_task_time is reset to now (get_dataset_task stamps the same
wall clock inside the TaskManager before the servicer's reset). -/
def get_task (env : GetTaskEnv) (worker_id : Nat) (s : ServicerState) :
    TaskResponse × ServicerState :=
  let s := if s.start_training_time = none then
    { s with start_training_time := some env.now } else s
  let res : TaskResponse := ⟨0, .none_, "", 0, 0, [], s.version⟩
  if env.dataset_known = false then (res, s)
  else
    let res :=
      match env.task_yield with
      | some t =>
        { res with
          task_id := t.task_id
          task_type := t.task_type
          shard_name := t.shard.shard_name
          shard_start := t.shard.start
          shard_stop := t.shard.stop
          shard_indices := t.shard.record_indices }
      | none =>
        if env.dataset_completed = false then
          if env.has_rendezvous = true then
            if env.running_workers = 1 then
              { res with task_type := .wait_ }
            else res
          else { res with task_type := .wait_ }
        else res
    (res, { s with worker_start_task_time :=
      (set_time s.worker_start_task_time worker_id env.now) })

/-- C5: for a get_task call on a known, not-yet-completed dataset — when
the TaskManager yields a task the response carries its id, type and shard
fields; otherwise the response type is WAIT exactly when there is no
rendezvous server, or there is one and exactly one running worker
remains; in all cases the response's model_version is the servicer's
version and the caller's worker_start_task_time is reset to the call's
wall clock. -/
theorem get_task_response_contract (env : GetTaskEnv) (worker_id : Nat)
    (s : ServicerState) (hknown : env.dataset_known = true)
    (hincomplete : env.dataset_completed = false) :
    (∀ t, env.task_yield = some t →
      (get_task env worker_id s).1.task_id = t.task_id ∧
      (get_task env worker_id s).1.task_type = t.task_type ∧
      (get_task env worker_id s).1.shard_name = t.shard.shard_name ∧
      (get_task env worker_id s).1.shard_start = t.shard.start ∧
      (get_task env worker_id s).1.shard_stop = t.shard.stop ∧
      (get_task env worker_id s).1.shard_indices
        = t.shard.record_indices) ∧
    (env.task_yield = none →
      ((get_task env worker_id s).1.task_type = .wait_ ↔
        (env.has_rendezvous = false ∨ env.running_workers = 1))) ∧
    (get_task env worker_id s).1.model_version = s.version ∧
    ((get_task env worker_id s).2.worker_start_task_time.lookup worker_id
      = some env.now) := by
  by_cases hstt : s.start_training_time = none <;>
    cases hy : env.task_yield <;>
      by_cases hr : env.has_rendezvous = true <;>
        by_cases hw : env.running_workers = 1 <;>
          simp [get_task, hknown, hincomplete, hstt, hy, hr, hw,
            lookup_set_time, Bool.not_eq_true]

/-- A get_task call on a known incomplete dataset with no schedulable
task, a rendezvous server present and one running worker left. -/
def getTaskEnvSample : GetTaskEnv := ⟨true, false, none, true, 1, 500⟩

/-- A servicer state with model version 7 and a stale start time for
worker 2. -/
def getTaskStateSample : ServicerState := ⟨7, some 0, false, [(2, 100)]⟩

theorem get_task_response_contract_checked :
    getTaskEnvSample.dataset_known = true ∧
    getTaskEnvSample.dataset_completed = false ∧
    (get_task getTaskEnvSample 2 getTaskStateSample).1.task_type
      = PbTaskType.wait_ ∧
    (get_task getTaskEnvSample 2 getTaskStateSample).1.model_version
      = getTaskStateSample.version ∧
    ((get_task getTaskEnvSample 2
      getTaskStateSample).2.worker_start_task_time.lookup 2
        = some getTaskEnvSample.now) := by
  refine ⟨rfl, rfl, ?_, ?_, ?_⟩
  · exact ((get_task_response_contract getTaskEnvSample 2
      getTaskStateSample rfl rfl).2.1 rfl).mpr (Or.inr rfl)
  · exact (get_task_response_contract getTaskEnvSample 2
      getTaskStateSample rfl rfl).2.2.1
  · exact (get_task_response_contract getTaskEnvSample 2
      getTaskStateSample rfl rfl).2.2.2

/-- Event targets read by the Atorch collector (TRAINER, SAVER). -/
inductive EventTargetName where
  | trainer
  | saver
deriving DecidableEq, Repr

/-- Train event names accepted by parse_line (STEP, FLASH_CKPT). -/
inductive TrainEventName where
  | step
  | flashCkpt
deriving DecidableEq, Repr

/-- Event types accepted by parse_line (BEGIN, END). -/
inductive EventTypeName where
  | begin_
  | end_
deriving DecidableEq, Repr

/-- A successfully parsed event line: timestamp, target, event name,
event type and global step, as returned by
AtorchEventCollector.parse_line. -/
structure AtorchEvent where
  ts : Int
  target : EventTargetName
  event_name : TrainEventName
  event_type : EventTypeName
  step : Int
deriving DecidableEq, Repr

/-- Whether a parsed event is a TRAINER step event of type BEGIN
(atorch_event_collector.py lines 152-157). -/
def is_trainer_step_begin (ev : AtorchEvent) : Bool :=
  ev.target = EventTargetName.trainer &&
    ev.event_name = TrainEventName.step &&
      ev.event_type = EventTypeName.begin_

/-- One loop iteration of AtorchEventCollector._monitor_file over a read
line (lines 130-169): a line whose parse raises is skipped (none); the
first TRAINER STEP BEGIN event latches _first_step when it is still None;
then the event is reported iff _first_step is set and the event's step
differs from it.  Returns the new _first_step and the reported event, if
any. -/
def monitor_step (first_step : Option Int) (line : Option AtorchEvent) :
    Option Int × Option AtorchEvent :=
  match line with
  | none => (first_step, none)
  | some ev =>
    let first_step :=
      if first_step = none ∧ is_trainer_step_begin ev = true then
        some ev.step
      else first_step
    match first_step with
    | some s0 =>
      if ev.step ≠ s0 then (some s0, some ev) else (some s0, none)
    | none => (none, none)

/-- The monitor loop over a finite sequence of read lines, collecting the
events it reports to the master via _report_event, in order. -/
def monitor_run (first_step : Option Int) :
    List (Option AtorchEvent) → Option Int × List AtorchEvent
  | [] => (first_step, [])
  | line :: rest =>
    let r := monitor_step first_step line
    let r2 := monitor_run r.1 rest
    (r2.1, (match r.2 with | some ev => [ev] | none => []) ++ r2.2)

/-- The global step of the first TRAINER STEP BEGIN parsed event in a
line sequence, if any. -/
def first_begin_step : List (Option AtorchEvent) → Option Int
  | [] => none
  | none :: rest => first_begin_step rest
  | some ev :: rest =>
    if is_trainer_step_begin ev then some ev.step
    else first_begin_step rest

theorem monitor_run_no_begin (lines : List (Option AtorchEvent))
    (h : first_begin_step lines = none) :
    monitor_run none lines = (none, []) := by
  induction lines with
  | nil => rfl
  | cons line rest ih =>
    cases line with
    | none =>
      have hr : first_begin_step rest = none := h
      simp [monitor_run, monitor_step, ih hr]
    | some ev =>
      have hb : is_trainer_step_begin ev = false := by
        by_contra hb
        have hb2 : is_trainer_step_begin ev = true :=
          Bool.not_eq_false _ ▸ (by simpa using hb)
        simp [first_begin_step, hb2] at h
      have hr : first_begin_step rest = none := by
        simpa [first_begin_step, hb] using h
      simp [monitor_run, monitor_step, hb, ih hr]

theorem monitor_run_latched_step (s0 : Int)
    (lines : List (Option AtorchEvent)) :
    (monitor_run (some s0) lines).1 = some s0 ∧
    ∀ e ∈ (monitor_run (some s0) lines).2, e.step ≠ s0 := by
  induction lines with
  | nil => exact ⟨rfl, by simp [monitor_run]⟩
  | cons line rest ih =>
    cases line with
    | none =>
      simpa [monitor_run, monitor_step] using ih
    | some ev =>
      by_cases hs : ev.step ≠ s0
      · constructor
        · simpa [monitor_run, monitor_step, hs] using ih.1
        · intro e he
          simp only [monitor_run, monitor_step] at he
          simp only [if_neg (by simp : ¬((some s0 : Option Int) = none ∧
            is_trainer_step_begin ev = true)), if_pos hs,
            List.mem_append, List.mem_singleton] at he
          rcases he with he | he
          · rw [he]; exact hs
          · exact ih.2 e he
      · constructor
        · simpa [monitor_run, monitor_step, hs] using ih.1
        · intro e he
          simp only [monitor_run, monitor_step] at he
          simp only [if_neg (by simp : ¬((some s0 : Option Int) = none ∧
            is_trainer_step_begin ev = true)), if_neg hs,
            List.nil_append] at he
          exact ih.2 e he

/-- C10: in one pass of the file-monitor loop, no parsed event is
reported before a TRAINER step event of type BEGIN has been observed on
the file (a prefix of the line sequence with no such event reports
nothing), and every reported event carries a global step different from
the step of the first observed TRAINER STEP BEGIN event. -/
theorem monitor_file_report_contract (lines : List (Option AtorchEvent)) :
    (∀ pre suf, lines = pre ++ suf → first_begin_step pre = none →
      (monitor_run none pre).2 = []) ∧
    (∀ e, e ∈ (monitor_run none lines).2 →
      ∃ s0, first_begin_step lines = some s0 ∧ e.step ≠ s0) := by
  constructor
  · intro pre suf hsplit hpre
    rw [monitor_run_no_begin pre hpre]
  · induction lines with
    | nil => intro e he; simp [monitor_run] at he
    | cons line rest ih =>
      intro e he
      cases line with
      | none =>
        have he2 : e ∈ (monitor_run none rest).2 := by
          simpa [monitor_run, monitor_step] using he
        obtain ⟨s0, h1, h2⟩ := ih e he2
        exact ⟨s0, by simpa [first_begin_step] using h1, h2⟩
      | some ev =>
        by_cases hb : is_trainer_step_begin ev = true
        · have hlatch := monitor_run_latched_step ev.step rest
          have he2 : e ∈ (monitor_run (some ev.step) rest).2 := by
            simpa [monitor_run, monitor_step, hb] using he
          exact ⟨ev.step, by simp [first_begin_step, hb],
            hlatch.2 e he2⟩
        · have hbf : is_trainer_step_begin ev = false :=
            Bool.not_eq_true _ ▸ hb
          have he2 : e ∈ (monitor_run none rest).2 := by
            simpa [monitor_run, monitor_step, hbf] using he
          obtain ⟨s0, h1, h2⟩ := ih e he2
          exact ⟨s0, by simpa [first_begin_step, hbf] using h1, h2⟩

/-- The first TRAINER STEP BEGIN event of the sample trace, at step 5. -/
def beginEvent : AtorchEvent := ⟨100, .trainer, .step, .begin_, 5⟩

/-- A later TRAINER STEP END event at step 6. -/
def laterEvent : AtorchEvent := ⟨200, .trainer, .step, .end_, 6⟩

/-- A sample tail of the event log: one malformed line, the first BEGIN,
one later event. -/
def monitorLines : List (Option AtorchEvent) :=
  [none, some beginEvent, some laterEvent]

theorem monitor_file_report_contract_checked :
    (monitor_run none [(none : Option AtorchEvent)]).2 = [] ∧
    laterEvent ∈ (monitor_run none monitorLines).2 ∧
    (∃ s0, first_begin_step monitorLines = some s0 ∧
      laterEvent.step ≠ s0) := by
  refine ⟨?_, by decide, ?_⟩
  · exact (monitor_file_report_contract monitorLines).1
      [none] [some beginEvent, some laterEvent] rfl rfl
  · exact (monitor_file_report_contract monitorLines).2
      laterEvent (by decide)

end DLRover
